import Mathlib

/-!
# ConvolutionThunk::ExecuteOnStream

A shallow embedding of `tensorflow/compiler/xla/service/gpu/convolution_thunk.cc`.

`ExecuteOnStream` is straight-line code around four external collaborators
(`PopulateCudnnConvParams`, `BufferAllocations::GetDeviceAddress`,
`RunCudnnConvolution`, and the `se::Stream` it is handed) plus the scoped
instruction profiler.  The embedding threads an explicit log of the calls made
to those collaborators, in program order, and returns the log together with
the returned `Status`.  The collaborators themselves are parameters.
-/

namespace xla
namespace gpu

/-! ## Data model -/

/-- A `const HloCustomCallInstruction*` / `const HloInstruction*`: pointers are
compared by identity only, so they are modelled by a number. -/
abbrev HloInstructionPtr := Nat

/-- A `se::Stream*`, by identity. -/
abbrev StreamPtr := Nat

/-- A `HloExecutionProfiler*`, by identity. -/
abbrev ProfilerPtr := Nat

/-- Type `BufferAllocation::Slice`: a span (offset, size) inside allocation number
`allocation`.  The thunk only stores slices and hands them to
`GetDeviceAddress`. -/
structure Slice where
  allocation : Nat
  offset : Nat
  size : Nat
deriving DecidableEq, Repr

/-- Type `se::DeviceMemoryBase`: an untyped device pointer (what `.opaque()`
returns, here the field `opaque_`) together with a byte size. -/
structure DeviceMemoryBase where
  opaque_ : Nat
  size : Nat
deriving DecidableEq, Repr

/-- Type `tensorflow::Status`: either OK, or an error code with a message. -/
inductive Status where
  | OK : Status
  | Error (code : Nat) (error_message : String) : Status
deriving DecidableEq, Repr

/-- Method `Status::ok()`. -/
def Status.ok : Status → Bool
  | Status.OK => true
  | Status.Error _ _ => false

/-- Code `tensorflow::error::INTERNAL`. -/
def INTERNAL : Nat := 13

/-- Helper `InternalError(msg)` from `xla/util.h`: a status with code `INTERNAL`. -/
def InternalError (msg : String) : Status := Status.Error INTERNAL msg

/-- Modelled from the spec: the enum `CudnnConvKind` is declared in
`cudnn_convolution_runner.h`, which is not part of the sources; the spec gives
it as the closed variant Forward, BackwardInput, BackwardFilter, which are
also the three cases of both `switch` statements of `ExecuteOnStream`. -/
inductive CudnnConvKind where
  | kForward
  | kBackwardInput
  | kBackwardFilter
deriving DecidableEq, Repr

/-- Modelled from the spec: the struct `CudnnConvParams` is declared in
`cudnn_convolution_runner.h`, which is not part of the sources.  The spec
gives it as a kind, three addresses (input, filter, output) and an
algorithm/shape configuration that this unit never looks at; that
configuration is the type parameter `Cfg`, field `config`. -/
structure CudnnConvParams (Cfg : Type) where
  kind : CudnnConvKind
  input_buf : DeviceMemoryBase
  filter_buf : DeviceMemoryBase
  output_buf : DeviceMemoryBase
  config : Cfg
deriving DecidableEq, Repr

/-- The calls `ExecuteOnStream` makes to its collaborators, as log entries. -/
inductive Event (Cfg : Type) where
  /-- Call `PopulateCudnnConvParams(cudnn_call_, &params)`. -/
  | populate (cudnn_call : HloInstructionPtr) : Event Cfg
  /-- Call `buffer_allocations.GetDeviceAddress(slice)`. -/
  | getDeviceAddress (slice : Slice) : Event Cfg
  /-- Call `profiler->MakeScopedInstructionProfiler(hlo_instruction())`: the
  scoped profiler object starts to exist. -/
  | profilerOpen (profiler : ProfilerPtr) (hlo : HloInstructionPtr) : Event Cfg
  /-- Call `RunCudnnConvolution(params, scratch, stream)`. -/
  | runCudnnConvolution (params : CudnnConvParams Cfg) (scratch : DeviceMemoryBase)
      (stream : StreamPtr) : Event Cfg
  /-- Call `stream->ThenMemcpyH2D<void*>(ptrs, &tuple_addr)`. -/
  | thenMemcpyH2D (stream : StreamPtr) (ptrs : List Nat) (dst : DeviceMemoryBase) : Event Cfg
  /-- Call `stream->ok()`. -/
  | streamOk (stream : StreamPtr) : Event Cfg
  /-- The destructor of the local `op_profiler`, run when the function scope
  that declared it is left. -/
  | profilerClose (profiler : ProfilerPtr) (hlo : HloInstructionPtr) : Event Cfg
deriving DecidableEq, Repr

/-- Class `BufferAllocations`, as far as this unit uses it: the (const) address
resolver `GetDeviceAddress`. -/
structure BufferAllocations where
  GetDeviceAddress : Slice → DeviceMemoryBase

/-- The external collaborators whose results `ExecuteOnStream` branches on.
`PopulateCudnnConvParams` returns its status and the record it leaves in the
out-parameter; `stream_ok` answers `stream->ok()` given everything this
invocation has issued up to that point. -/
structure Collaborators (Cfg : Type) where
  PopulateCudnnConvParams : HloInstructionPtr → Status × CudnnConvParams Cfg
  RunCudnnConvolution : CudnnConvParams Cfg → DeviceMemoryBase → StreamPtr → Status
  stream_ok : StreamPtr → List (Event Cfg) → Bool

/-- The members of `ConvolutionThunk`; `hlo_instruction_` is the member of the
base class `Thunk` that `hlo_instruction()` returns. -/
structure ConvolutionThunk where
  hlo_instruction_ : HloInstructionPtr
  cudnn_call_ : HloInstructionPtr
  operand_buffers_ : List Slice
  result_buffer_ : Slice
  scratch_buffer_ : Slice
  tuple_result_buffer_ : Slice
deriving DecidableEq, Repr

/-- The constructor `ConvolutionThunk::ConvolutionThunk`: stores its arguments
verbatim, `Thunk(Kind::kConvolution, cudnn_call)` keeping the instruction. -/
def ConvolutionThunk.new (cudnn_call : HloInstructionPtr) (operand_slices : List Slice)
    (result_slice scratch_slice tuple_result_slice : Slice) : ConvolutionThunk :=
  { hlo_instruction_ := cudnn_call
    cudnn_call_ := cudnn_call
    operand_buffers_ := operand_slices
    result_buffer_ := result_slice
    scratch_buffer_ := scratch_slice
    tuple_result_buffer_ := tuple_result_slice }

/-- Accessor `Thunk::hlo_instruction()`. -/
def ConvolutionThunk.hlo_instruction (self : ConvolutionThunk) : HloInstructionPtr :=
  self.hlo_instruction_

/-- What one invocation did: the calls it made, in order, and the status it
returned. -/
structure Run (Cfg : Type) where
  trace : List (Event Cfg)
  status : Status
deriving DecidableEq, Repr

/-! ## The code -/

/-- The first `switch (params.kind)` of `ExecuteOnStream` (lines 50-72): fills
the three address fields and logs the three `GetDeviceAddress` calls in the
order of the statements.  `operand_buffers_[i]` is `std::vector::operator[]`,
which has no defined result out of range: that is `none` here. -/
def assignBuffers {Cfg : Type} (self : ConvolutionThunk) (buffer_allocations : BufferAllocations)
    (params : CudnnConvParams Cfg) : Option (CudnnConvParams Cfg × List (Event Cfg)) :=
  match params.kind with
  | CudnnConvKind.kForward =>
    match self.operand_buffers_[0]? with
    | none => none
    | some op0 =>
      match self.operand_buffers_[1]? with
      | none => none
      | some op1 =>
        some ({ params with
                input_buf := buffer_allocations.GetDeviceAddress op0
                filter_buf := buffer_allocations.GetDeviceAddress op1
                output_buf := buffer_allocations.GetDeviceAddress self.result_buffer_ },
              [Event.getDeviceAddress op0, Event.getDeviceAddress op1,
               Event.getDeviceAddress self.result_buffer_])
  | CudnnConvKind.kBackwardInput =>
    match self.operand_buffers_[1]? with
    | none => none
    | some op1 =>
      match self.operand_buffers_[0]? with
      | none => none
      | some op0 =>
        some ({ params with
                input_buf := buffer_allocations.GetDeviceAddress self.result_buffer_
                filter_buf := buffer_allocations.GetDeviceAddress op1
                output_buf := buffer_allocations.GetDeviceAddress op0 },
              [Event.getDeviceAddress self.result_buffer_, Event.getDeviceAddress op1,
               Event.getDeviceAddress op0])
  | CudnnConvKind.kBackwardFilter =>
    match self.operand_buffers_[0]? with
    | none => none
    | some op0 =>
      match self.operand_buffers_[1]? with
      | none => none
      | some op1 =>
        some ({ params with
                input_buf := buffer_allocations.GetDeviceAddress op0
                filter_buf := buffer_allocations.GetDeviceAddress self.result_buffer_
                output_buf := buffer_allocations.GetDeviceAddress op1 },
              [Event.getDeviceAddress op0, Event.getDeviceAddress self.result_buffer_,
               Event.getDeviceAddress op1])

/-- The lambda of lines 82-91: which of output/input/filter is the result
produced by this op. -/
def result_ptr {Cfg : Type} (params : CudnnConvParams Cfg) : Nat :=
  match params.kind with
  | CudnnConvKind.kForward => params.output_buf.opaque_
  | CudnnConvKind.kBackwardInput => params.input_buf.opaque_
  | CudnnConvKind.kBackwardFilter => params.filter_buf.opaque_

/-- Method `ConvolutionThunk::ExecuteOnStream` (lines 44-101).  `none` stands for an
out-of-range `operand_buffers_[i]`.  The local `op_profiler` is declared in
the function's outermost scope, so its destructor runs on each `return` that
follows its declaration, after the returned value has been built. -/
def ExecuteOnStream {Cfg : Type} (ext : Collaborators Cfg) (self : ConvolutionThunk)
    (buffer_allocations : BufferAllocations) (stream : StreamPtr) (profiler : ProfilerPtr) :
    Option (Run Cfg) :=
  -- CudnnConvParams params;
  -- TF_RETURN_IF_ERROR(PopulateCudnnConvParams(cudnn_call_, &params));
  let t1 : List (Event Cfg) := [Event.populate self.cudnn_call_]
  match ext.PopulateCudnnConvParams self.cudnn_call_ with
  | (Status.Error code msg, _) => some ⟨t1, Status.Error code msg⟩
  | (Status.OK, params0) =>
    -- switch (params.kind) { ... }
    match assignBuffers self buffer_allocations params0 with
    | none => none
    | some (params, resolved) =>
      -- se::DeviceMemoryBase scratch = buffer_allocations.GetDeviceAddress(scratch_buffer_);
      let scratch := buffer_allocations.GetDeviceAddress self.scratch_buffer_
      let t2 := t1 ++ resolved ++ [Event.getDeviceAddress self.scratch_buffer_]
      -- auto op_profiler = profiler->MakeScopedInstructionProfiler(hlo_instruction());
      let t3 := t2 ++ [Event.profilerOpen profiler self.hlo_instruction]
      -- TF_RETURN_IF_ERROR(RunCudnnConvolution(params, scratch, stream));
      let t4 := t3 ++ [Event.runCudnnConvolution params scratch stream]
      match ext.RunCudnnConvolution params scratch stream with
      | Status.Error code msg =>
        some ⟨t4 ++ [Event.profilerClose profiler self.hlo_instruction], Status.Error code msg⟩
      | Status.OK =>
        -- void* ptrs[] = {result_ptr, scratch.opaque()};
        let ptrs := [result_ptr params, scratch.opaque_]
        -- se::DeviceMemory<void*> tuple_addr(
        --     buffer_allocations.GetDeviceAddress(tuple_result_buffer_));
        let tuple_addr := buffer_allocations.GetDeviceAddress self.tuple_result_buffer_
        let t5 := t4 ++ [Event.getDeviceAddress self.tuple_result_buffer_]
        -- stream->ThenMemcpyH2D<void*>(ptrs, &tuple_addr);
        let t6 := t5 ++ [Event.thenMemcpyH2D stream ptrs tuple_addr]
        -- if (!stream->ok()) return InternalError(...); return Status::OK();
        let t7 := t6 ++ [Event.streamOk stream]
        if !ext.stream_ok stream t6 then
          some ⟨t7 ++ [Event.profilerClose profiler self.hlo_instruction],
                InternalError "ConvolutionThunk::ExecuteOnStream failed."⟩
        else
          some ⟨t7 ++ [Event.profilerClose profiler self.hlo_instruction], Status.OK⟩

/-! ## Reading the log -/

/-- The `RunCudnnConvolution` calls of a log, in order, with their arguments. -/
def runnerCalls {Cfg : Type} :
    List (Event Cfg) → List (CudnnConvParams Cfg × DeviceMemoryBase × StreamPtr)
  | [] => []
  | Event.runCudnnConvolution params scratch stream :: rest =>
    (params, scratch, stream) :: runnerCalls rest
  | _ :: rest => runnerCalls rest

/-- The `ThenMemcpyH2D` calls of a log, in order: stream, host array copied,
device destination. -/
def memcpyCalls {Cfg : Type} : List (Event Cfg) → List (StreamPtr × List Nat × DeviceMemoryBase)
  | [] => []
  | Event.thenMemcpyH2D stream ptrs dst :: rest => (stream, ptrs, dst) :: memcpyCalls rest
  | _ :: rest => memcpyCalls rest

/-- The slices handed to `GetDeviceAddress` in a log, in order. -/
def resolvedSlices {Cfg : Type} : List (Event Cfg) → List Slice
  | [] => []
  | Event.getDeviceAddress slice :: rest => slice :: resolvedSlices rest
  | _ :: rest => resolvedSlices rest

/-- The streams whose `ok()` was read in a log, in order. -/
def streamChecks {Cfg : Type} : List (Event Cfg) → List StreamPtr
  | [] => []
  | Event.streamOk stream :: rest => stream :: streamChecks rest
  | _ :: rest => streamChecks rest

/-- Whether a log entry is something done with a stream: the runner dispatch,
the host-to-device copy, or the read of the error state. -/
def Event.isStreamOp {Cfg : Type} : Event Cfg → Bool
  | Event.runCudnnConvolution _ _ _ => true
  | Event.thenMemcpyH2D _ _ _ => true
  | Event.streamOk _ => true
  | _ => false

/-- Whether a log entry opens or closes the profiler span. -/
def Event.isProfiler {Cfg : Type} : Event Cfg → Bool
  | Event.profilerOpen _ _ => true
  | Event.profilerClose _ _ => true
  | _ => false

/-- Whether a log entry is the tuple write-back or the read of the stream's
error state. -/
def Event.isWriteBackOrCheck {Cfg : Type} : Event Cfg → Bool
  | Event.thenMemcpyH2D _ _ _ => true
  | Event.streamOk _ => true
  | _ => false

/-- Whether no span release (`profilerClose`) comes after a tuple write-back
or a read of the stream's error state in a log: past the first write-back or
check, the log holds no `profilerClose`. -/
def releasedBeforeWriteBack {Cfg : Type} (trace : List (Event Cfg)) : Bool :=
  (trace.dropWhile fun e => !e.isWriteBackOrCheck).all fun e =>
    match e with
    | Event.profilerClose _ _ => false
    | _ => true

/-! ## The specification's tables -/

/-- The address table of the specification (execute contract, step 2), row by
row: the (input, filter, output) addresses for operand addresses `A0`, `A1`
and primary-result address `R`. -/
def kindTable (kind : CudnnConvKind) (A0 A1 R : DeviceMemoryBase) :
    DeviceMemoryBase × DeviceMemoryBase × DeviceMemoryBase :=
  match kind with
  | CudnnConvKind.kForward => (A0, A1, R)
  | CudnnConvKind.kBackwardInput => (R, A1, A0)
  | CudnnConvKind.kBackwardFilter => (A0, R, A1)

/-- The populator's record with its three address fields replaced by the row
of `kindTable` for its kind. -/
def tableParams {Cfg : Type} (p : CudnnConvParams Cfg) (A0 A1 R : DeviceMemoryBase) :
    CudnnConvParams Cfg :=
  { kind := p.kind
    input_buf := (kindTable p.kind A0 A1 R).1
    filter_buf := (kindTable p.kind A0 A1 R).2.1
    output_buf := (kindTable p.kind A0 A1 R).2.2
    config := p.config }

/-- The result selection of the specification (execute contract, step 6):
Forward gives the output address, BackwardInput the input address,
BackwardFilter the filter address. -/
def selectedResult {Cfg : Type} (kind : CudnnConvKind) (q : CudnnConvParams Cfg) :
    DeviceMemoryBase :=
  match kind with
  | CudnnConvKind.kForward => q.output_buf
  | CudnnConvKind.kBackwardInput => q.input_buf
  | CudnnConvKind.kBackwardFilter => q.filter_buf

/-- The order in which the switch of lines 50-72 resolves the two operands
and the result region, per kind. -/
def resolutionOrder (kind : CudnnConvKind) (op0 op1 result : Slice) : List Slice :=
  match kind with
  | CudnnConvKind.kForward => [op0, op1, result]
  | CudnnConvKind.kBackwardInput => [result, op1, op0]
  | CudnnConvKind.kBackwardFilter => [op0, result, op1]

/-! ## The shapes of a log -/

/-- The log up to and including the runner dispatch, when the populator
succeeded with record `p`. -/
def dispatchLog {Cfg : Type} (self : ConvolutionThunk) (ba : BufferAllocations)
    (stream : StreamPtr) (profiler : ProfilerPtr) (p : CudnnConvParams Cfg) (s0 s1 : Slice) :
    List (Event Cfg) :=
  Event.populate self.cudnn_call_ ::
    ((resolutionOrder p.kind s0 s1 self.result_buffer_).map Event.getDeviceAddress ++
      [Event.getDeviceAddress self.scratch_buffer_,
       Event.profilerOpen profiler self.hlo_instruction,
       Event.runCudnnConvolution
         (tableParams p (ba.GetDeviceAddress s0) (ba.GetDeviceAddress s1)
           (ba.GetDeviceAddress self.result_buffer_))
         (ba.GetDeviceAddress self.scratch_buffer_) stream])

/-- The write-back part of the log: the resolution of the tuple region and the
copy. -/
def writeBackLog {Cfg : Type} (self : ConvolutionThunk) (ba : BufferAllocations)
    (stream : StreamPtr) (p : CudnnConvParams Cfg) (s0 s1 : Slice) : List (Event Cfg) :=
  [Event.getDeviceAddress self.tuple_result_buffer_,
   Event.thenMemcpyH2D stream
     [result_ptr (tableParams p (ba.GetDeviceAddress s0) (ba.GetDeviceAddress s1)
        (ba.GetDeviceAddress self.result_buffer_)),
      (ba.GetDeviceAddress self.scratch_buffer_).opaque_]
     (ba.GetDeviceAddress self.tuple_result_buffer_)]

/-! ## Concrete inputs -/

/-- A unit with three operand regions, as the constructor builds it. -/
def exampleThunk : ConvolutionThunk :=
  ConvolutionThunk.new 1 [⟨0, 0, 64⟩, ⟨0, 64, 32⟩, ⟨0, 512, 8⟩] ⟨1, 0, 128⟩ ⟨2, 0, 256⟩ ⟨3, 0, 16⟩

/-- An address resolver: allocation `n` starts at address `1000 * (n + 1)`. -/
def exampleAllocations : BufferAllocations :=
  ⟨fun s => ⟨1000 * (s.allocation + 1) + s.offset, s.size⟩⟩

/-- Collaborators for the examples: the populator succeeds with a record of
the given kind (addresses empty, configuration 5), the runner returns
`runStatus`, the stream answers `ok`. -/
def exampleCollaborators (kind : CudnnConvKind) (runStatus : Status) (ok : Bool) :
    Collaborators Nat :=
  { PopulateCudnnConvParams := fun _ => (Status.OK, ⟨kind, ⟨0, 0⟩, ⟨0, 0⟩, ⟨0, 0⟩, 5⟩)
    RunCudnnConvolution := fun _ _ _ => runStatus
    stream_ok := fun _ _ => ok }

/-- The invocation of `exampleThunk` for a Forward convolution on stream 7
with profiler 9, when populator, runner and stream all report success. -/
def exampleForwardRun : Run Nat :=
  { trace :=
      [Event.populate 1,
       Event.getDeviceAddress ⟨0, 0, 64⟩,
       Event.getDeviceAddress ⟨0, 64, 32⟩,
       Event.getDeviceAddress ⟨1, 0, 128⟩,
       Event.getDeviceAddress ⟨2, 0, 256⟩,
       Event.profilerOpen 9 1,
       Event.runCudnnConvolution
         ⟨CudnnConvKind.kForward, ⟨1000, 64⟩, ⟨1064, 32⟩, ⟨2000, 128⟩, 5⟩ ⟨3000, 256⟩ 7,
       Event.getDeviceAddress ⟨3, 0, 16⟩,
       Event.thenMemcpyH2D 7 [2000, 3000] ⟨4000, 16⟩,
       Event.streamOk 7,
       Event.profilerClose 9 1]
    status := Status.OK }

/-- Collaborators whose populator rejects the descriptor. -/
def failingPopulator : Collaborators Nat :=
  { PopulateCudnnConvParams := fun _ =>
      (Status.Error 3 "bad descriptor", ⟨CudnnConvKind.kForward, ⟨0, 0⟩, ⟨0, 0⟩, ⟨0, 0⟩, 0⟩)
    RunCudnnConvolution := fun _ _ _ => Status.OK
    stream_ok := fun _ _ => true }

/-! ## Basic facts about the code -/

theorem assignBuffers_eq {Cfg : Type} (self : ConvolutionThunk) (ba : BufferAllocations)
    (p : CudnnConvParams Cfg) (s0 s1 : Slice)
    (h0 : self.operand_buffers_[0]? = some s0) (h1 : self.operand_buffers_[1]? = some s1) :
    assignBuffers self ba p =
      some (tableParams p (ba.GetDeviceAddress s0) (ba.GetDeviceAddress s1)
              (ba.GetDeviceAddress self.result_buffer_),
            (resolutionOrder p.kind s0 s1 self.result_buffer_).map Event.getDeviceAddress) := by
  obtain ⟨kind, i, f, o, c⟩ := p
  cases kind <;> simp [assignBuffers, h0, h1, tableParams, kindTable, resolutionOrder]

theorem operands_of_length {self : ConvolutionThunk} (h : 2 ≤ self.operand_buffers_.length) :
    ∃ s0 s1, self.operand_buffers_[0]? = some s0 ∧ self.operand_buffers_[1]? = some s1 := by
  rcases hl : self.operand_buffers_ with _ | ⟨a, _ | ⟨b, t⟩⟩
  · simp [hl] at h
  · simp [hl] at h
  · exact ⟨a, b, by simp, by simp⟩

/-- When the populator fails, the invocation is the populator call alone. -/
theorem exec_populate_error {Cfg : Type} (ext : Collaborators Cfg) (self : ConvolutionThunk)
    (ba : BufferAllocations) (stream : StreamPtr) (profiler : ProfilerPtr)
    (code : Nat) (msg : String) (p : CudnnConvParams Cfg)
    (hpop : ext.PopulateCudnnConvParams self.cudnn_call_ = (Status.Error code msg, p)) :
    ExecuteOnStream ext self ba stream profiler =
      some ⟨[Event.populate self.cudnn_call_], Status.Error code msg⟩ := by
  simp [ExecuteOnStream, hpop]

theorem exec_runner_error {Cfg : Type} (ext : Collaborators Cfg) (self : ConvolutionThunk)
    (ba : BufferAllocations) (stream : StreamPtr) (profiler : ProfilerPtr)
    (p : CudnnConvParams Cfg) (s0 s1 : Slice) (code : Nat) (msg : String)
    (hpop : ext.PopulateCudnnConvParams self.cudnn_call_ = (Status.OK, p))
    (h0 : self.operand_buffers_[0]? = some s0) (h1 : self.operand_buffers_[1]? = some s1)
    (hrun : ext.RunCudnnConvolution
        (tableParams p (ba.GetDeviceAddress s0) (ba.GetDeviceAddress s1)
          (ba.GetDeviceAddress self.result_buffer_))
        (ba.GetDeviceAddress self.scratch_buffer_) stream = Status.Error code msg) :
    ExecuteOnStream ext self ba stream profiler =
      some ⟨dispatchLog self ba stream profiler p s0 s1 ++
              [Event.profilerClose profiler self.hlo_instruction],
            Status.Error code msg⟩ := by
  simp [ExecuteOnStream, hpop, assignBuffers_eq self ba p s0 s1 h0 h1, hrun, dispatchLog]

theorem exec_runner_ok {Cfg : Type} (ext : Collaborators Cfg) (self : ConvolutionThunk)
    (ba : BufferAllocations) (stream : StreamPtr) (profiler : ProfilerPtr)
    (p : CudnnConvParams Cfg) (s0 s1 : Slice)
    (hpop : ext.PopulateCudnnConvParams self.cudnn_call_ = (Status.OK, p))
    (h0 : self.operand_buffers_[0]? = some s0) (h1 : self.operand_buffers_[1]? = some s1)
    (hrun : ext.RunCudnnConvolution
        (tableParams p (ba.GetDeviceAddress s0) (ba.GetDeviceAddress s1)
          (ba.GetDeviceAddress self.result_buffer_))
        (ba.GetDeviceAddress self.scratch_buffer_) stream = Status.OK) :
    ExecuteOnStream ext self ba stream profiler =
      some ⟨dispatchLog self ba stream profiler p s0 s1 ++ writeBackLog self ba stream p s0 s1 ++
              [Event.streamOk stream, Event.profilerClose profiler self.hlo_instruction],
            if ext.stream_ok stream
                (dispatchLog self ba stream profiler p s0 s1 ++ writeBackLog self ba stream p s0 s1)
            then Status.OK
            else InternalError "ConvolutionThunk::ExecuteOnStream failed."⟩ := by
  simp only [ExecuteOnStream, hpop, assignBuffers_eq self ba p s0 s1 h0 h1, hrun, dispatchLog,
    writeBackLog]
  split <;> rename_i h <;> simp_all

/-! ## Facts about reading the log -/

theorem runnerCalls_append {Cfg : Type} (a b : List (Event Cfg)) :
    runnerCalls (a ++ b) = runnerCalls a ++ runnerCalls b := by
  induction a with
  | nil => rfl
  | cons e t ih => cases e <;> simp [runnerCalls, ih]

theorem memcpyCalls_append {Cfg : Type} (a b : List (Event Cfg)) :
    memcpyCalls (a ++ b) = memcpyCalls a ++ memcpyCalls b := by
  induction a with
  | nil => rfl
  | cons e t ih => cases e <;> simp [memcpyCalls, ih]

theorem streamChecks_append {Cfg : Type} (a b : List (Event Cfg)) :
    streamChecks (a ++ b) = streamChecks a ++ streamChecks b := by
  induction a with
  | nil => rfl
  | cons e t ih => cases e <;> simp [streamChecks, ih]

theorem runnerCalls_dispatchLog {Cfg : Type} (self : ConvolutionThunk) (ba : BufferAllocations)
    (stream : StreamPtr) (profiler : ProfilerPtr) (p : CudnnConvParams Cfg) (s0 s1 : Slice) :
    runnerCalls (dispatchLog self ba stream profiler p s0 s1) =
      [(tableParams p (ba.GetDeviceAddress s0) (ba.GetDeviceAddress s1)
          (ba.GetDeviceAddress self.result_buffer_),
        ba.GetDeviceAddress self.scratch_buffer_, stream)] := by
  cases hk : p.kind <;> simp [dispatchLog, resolutionOrder, runnerCalls, hk]

theorem memcpyCalls_dispatchLog {Cfg : Type} (self : ConvolutionThunk) (ba : BufferAllocations)
    (stream : StreamPtr) (profiler : ProfilerPtr) (p : CudnnConvParams Cfg) (s0 s1 : Slice) :
    memcpyCalls (dispatchLog self ba stream profiler p s0 s1) = [] := by
  cases hk : p.kind <;> simp [dispatchLog, resolutionOrder, memcpyCalls, hk]

theorem streamChecks_dispatchLog {Cfg : Type} (self : ConvolutionThunk) (ba : BufferAllocations)
    (stream : StreamPtr) (profiler : ProfilerPtr) (p : CudnnConvParams Cfg) (s0 s1 : Slice) :
    streamChecks (dispatchLog self ba stream profiler p s0 s1) = [] := by
  cases hk : p.kind <;> simp [dispatchLog, resolutionOrder, streamChecks, hk]

theorem result_ptr_tableParams {Cfg : Type} (p : CudnnConvParams Cfg)
    (A0 A1 R : DeviceMemoryBase) : result_ptr (tableParams p A0 A1 R) = R.opaque_ := by
  cases hk : p.kind <;> simp [result_ptr, tableParams, kindTable, hk]

/-! ## The claims -/

/-- C1: when the populator succeeds with a record of kind k and operand
regions 0 and 1, the result region and the scratch region resolve to A0, A1, R
and S, the runner is invoked (once) with a record whose (input, filter,
output) addresses are (A0, A1, R) for Forward, (R, A1, A0) for BackwardInput
and (A0, R, A1) for BackwardFilter, with scratch address S and the stream that
was passed to `ExecuteOnStream`. -/
theorem runner_receives_kind_table {Cfg : Type} (ext : Collaborators Cfg)
    (self : ConvolutionThunk) (ba : BufferAllocations) (stream : StreamPtr)
    (profiler : ProfilerPtr) (p : CudnnConvParams Cfg) (s0 s1 : Slice)
    (hpop : ext.PopulateCudnnConvParams self.cudnn_call_ = (Status.OK, p))
    (h0 : self.operand_buffers_[0]? = some s0) (h1 : self.operand_buffers_[1]? = some s1) :
    ∃ run q, ExecuteOnStream ext self ba stream profiler = some run ∧
      runnerCalls run.trace = [(q, ba.GetDeviceAddress self.scratch_buffer_, stream)] ∧
      (p.kind = CudnnConvKind.kForward →
        (q.input_buf, q.filter_buf, q.output_buf) =
          (ba.GetDeviceAddress s0, ba.GetDeviceAddress s1,
           ba.GetDeviceAddress self.result_buffer_)) ∧
      (p.kind = CudnnConvKind.kBackwardInput →
        (q.input_buf, q.filter_buf, q.output_buf) =
          (ba.GetDeviceAddress self.result_buffer_, ba.GetDeviceAddress s1,
           ba.GetDeviceAddress s0)) ∧
      (p.kind = CudnnConvKind.kBackwardFilter →
        (q.input_buf, q.filter_buf, q.output_buf) =
          (ba.GetDeviceAddress s0, ba.GetDeviceAddress self.result_buffer_,
           ba.GetDeviceAddress s1)) := by
  have htab : ∀ k, p.kind = k →
      ((tableParams p (ba.GetDeviceAddress s0) (ba.GetDeviceAddress s1)
          (ba.GetDeviceAddress self.result_buffer_)).input_buf,
       (tableParams p (ba.GetDeviceAddress s0) (ba.GetDeviceAddress s1)
          (ba.GetDeviceAddress self.result_buffer_)).filter_buf,
       (tableParams p (ba.GetDeviceAddress s0) (ba.GetDeviceAddress s1)
          (ba.GetDeviceAddress self.result_buffer_)).output_buf) =
        kindTable k (ba.GetDeviceAddress s0) (ba.GetDeviceAddress s1)
          (ba.GetDeviceAddress self.result_buffer_) := by
    intro k hk
    simp [tableParams, hk]
  cases hrun : ext.RunCudnnConvolution
      (tableParams p (ba.GetDeviceAddress s0) (ba.GetDeviceAddress s1)
        (ba.GetDeviceAddress self.result_buffer_))
      (ba.GetDeviceAddress self.scratch_buffer_) stream with
  | OK =>
    refine ⟨_, (tableParams p (ba.GetDeviceAddress s0) (ba.GetDeviceAddress s1)
      (ba.GetDeviceAddress self.result_buffer_)),
      exec_runner_ok ext self ba stream profiler p s0 s1 hpop h0 h1 hrun, ?_, ?_, ?_, ?_⟩
    · simp only [runnerCalls_append, runnerCalls_dispatchLog]; simp [writeBackLog, runnerCalls]
    · intro hk; simpa [kindTable] using htab _ hk
    · intro hk; simpa [kindTable] using htab _ hk
    · intro hk; simpa [kindTable] using htab _ hk
  | Error code msg =>
    refine ⟨_, (tableParams p (ba.GetDeviceAddress s0) (ba.GetDeviceAddress s1)
      (ba.GetDeviceAddress self.result_buffer_)),
      exec_runner_error ext self ba stream profiler p s0 s1 code msg hpop h0 h1 hrun,
      ?_, ?_, ?_, ?_⟩
    · simp only [runnerCalls_append, runnerCalls_dispatchLog]; simp [runnerCalls]
    · intro hk; simpa [kindTable] using htab _ hk
    · intro hk; simpa [kindTable] using htab _ hk
    · intro hk; simpa [kindTable] using htab _ hk

/-- C2: when the populator and the runner both succeed, exactly one
host-to-device copy is enqueued; its destination is the resolved address of
the tuple-result region and its payload is the two-element array [X, S], S
the resolved scratch address that was passed to the runner and X read from
the record q that was passed to the runner: the output address of q for
Forward, its input address for BackwardInput, its filter address for
BackwardFilter. -/
theorem write_back_is_selected_result_and_scratch {Cfg : Type} (ext : Collaborators Cfg)
    (self : ConvolutionThunk) (ba : BufferAllocations) (stream : StreamPtr)
    (profiler : ProfilerPtr) (p : CudnnConvParams Cfg) (s0 s1 : Slice)
    (hpop : ext.PopulateCudnnConvParams self.cudnn_call_ = (Status.OK, p))
    (h0 : self.operand_buffers_[0]? = some s0) (h1 : self.operand_buffers_[1]? = some s1)
    (hrun : ext.RunCudnnConvolution
        (tableParams p (ba.GetDeviceAddress s0) (ba.GetDeviceAddress s1)
          (ba.GetDeviceAddress self.result_buffer_))
        (ba.GetDeviceAddress self.scratch_buffer_) stream = Status.OK) :
    ∃ run q X, ExecuteOnStream ext self ba stream profiler = some run ∧
      runnerCalls run.trace = [(q, ba.GetDeviceAddress self.scratch_buffer_, stream)] ∧
      memcpyCalls run.trace =
        [(stream, [X, (ba.GetDeviceAddress self.scratch_buffer_).opaque_],
          ba.GetDeviceAddress self.tuple_result_buffer_)] ∧
      (q.kind = CudnnConvKind.kForward → X = q.output_buf.opaque_) ∧
      (q.kind = CudnnConvKind.kBackwardInput → X = q.input_buf.opaque_) ∧
      (q.kind = CudnnConvKind.kBackwardFilter → X = q.filter_buf.opaque_) := by
  refine ⟨_, (tableParams p (ba.GetDeviceAddress s0) (ba.GetDeviceAddress s1)
      (ba.GetDeviceAddress self.result_buffer_)),
    result_ptr (tableParams p (ba.GetDeviceAddress s0) (ba.GetDeviceAddress s1)
      (ba.GetDeviceAddress self.result_buffer_)),
    exec_runner_ok ext self ba stream profiler p s0 s1 hpop h0 h1 hrun, ?_, ?_, ?_, ?_, ?_⟩
  · simp only [runnerCalls_append, runnerCalls_dispatchLog]; simp [writeBackLog, runnerCalls]
  · simp only [memcpyCalls_append, memcpyCalls_dispatchLog]; simp [writeBackLog, memcpyCalls]
  · intro hk; simp [result_ptr, hk]
  · intro hk; simp [result_ptr, hk]
  · intro hk; simp [result_ptr, hk]

/-- C3: the address assignment and the result selection undo each other: for
every kind, when the populator and the runner succeed, the one tuple written
is (address of the primary-result region, address of the scratch region); so
slot 0 is an operand address only if that operand resolves to the address of
the primary-result region. -/
theorem tuple_is_result_and_scratch {Cfg : Type} (ext : Collaborators Cfg)
    (self : ConvolutionThunk) (ba : BufferAllocations) (stream : StreamPtr)
    (profiler : ProfilerPtr) (p : CudnnConvParams Cfg) (s0 s1 : Slice)
    (hpop : ext.PopulateCudnnConvParams self.cudnn_call_ = (Status.OK, p))
    (h0 : self.operand_buffers_[0]? = some s0) (h1 : self.operand_buffers_[1]? = some s1)
    (hrun : ext.RunCudnnConvolution
        (tableParams p (ba.GetDeviceAddress s0) (ba.GetDeviceAddress s1)
          (ba.GetDeviceAddress self.result_buffer_))
        (ba.GetDeviceAddress self.scratch_buffer_) stream = Status.OK) :
    ∃ run slot0, ExecuteOnStream ext self ba stream profiler = some run ∧
      memcpyCalls run.trace =
        [(stream, [slot0, (ba.GetDeviceAddress self.scratch_buffer_).opaque_],
          ba.GetDeviceAddress self.tuple_result_buffer_)] ∧
      slot0 = (ba.GetDeviceAddress self.result_buffer_).opaque_ ∧
      ∀ s ∈ self.operand_buffers_, slot0 = (ba.GetDeviceAddress s).opaque_ →
        (ba.GetDeviceAddress s).opaque_ = (ba.GetDeviceAddress self.result_buffer_).opaque_ := by
  refine ⟨_, result_ptr (tableParams p (ba.GetDeviceAddress s0) (ba.GetDeviceAddress s1)
      (ba.GetDeviceAddress self.result_buffer_)),
    exec_runner_ok ext self ba stream profiler p s0 s1 hpop h0 h1 hrun, ?_,
    result_ptr_tableParams p _ _ _, ?_⟩
  · simp only [memcpyCalls_append, memcpyCalls_dispatchLog]; simp [writeBackLog, memcpyCalls]
  · intro s _ hs
    rw [← hs, result_ptr_tableParams]

/-- C4: if the populator fails with error e, `ExecuteOnStream` returns exactly
e and the populator call is its only effect: the runner is not invoked, no
address is resolved, no profiler span is opened or closed and no copy is
enqueued. -/
theorem populate_failure_has_no_other_effect {Cfg : Type} (ext : Collaborators Cfg)
    (self : ConvolutionThunk) (ba : BufferAllocations) (stream : StreamPtr)
    (profiler : ProfilerPtr) (e : Status) (p : CudnnConvParams Cfg)
    (hpop : ext.PopulateCudnnConvParams self.cudnn_call_ = (e, p)) (he : e.ok = false) :
    ∃ run, ExecuteOnStream ext self ba stream profiler = some run ∧
      run.status = e ∧ run.trace = [Event.populate self.cudnn_call_] ∧
      runnerCalls run.trace = [] ∧ resolvedSlices run.trace = [] ∧
      run.trace.filter Event.isProfiler = [] ∧ memcpyCalls run.trace = [] := by
  cases e with
  | OK => simp [Status.ok] at he
  | Error code msg =>
    refine ⟨_, exec_populate_error ext self ba stream profiler code msg p hpop, rfl, rfl, ?_⟩
    simp [runnerCalls, resolvedSlices, memcpyCalls, Event.isProfiler]

/-- C5: if the populator succeeds and the runner fails with error e,
`ExecuteOnStream` returns exactly e, the runner was invoked exactly once, no
copy into the tuple-result region is enqueued and the error state of the
stream is not read. -/
theorem runner_failure_is_propagated {Cfg : Type} (ext : Collaborators Cfg)
    (self : ConvolutionThunk) (ba : BufferAllocations) (stream : StreamPtr)
    (profiler : ProfilerPtr) (p : CudnnConvParams Cfg) (s0 s1 : Slice) (e : Status)
    (hpop : ext.PopulateCudnnConvParams self.cudnn_call_ = (Status.OK, p))
    (h0 : self.operand_buffers_[0]? = some s0) (h1 : self.operand_buffers_[1]? = some s1)
    (hrun : ext.RunCudnnConvolution
        (tableParams p (ba.GetDeviceAddress s0) (ba.GetDeviceAddress s1)
          (ba.GetDeviceAddress self.result_buffer_))
        (ba.GetDeviceAddress self.scratch_buffer_) stream = e)
    (he : e.ok = false) :
    ∃ run, ExecuteOnStream ext self ba stream profiler = some run ∧
      run.status = e ∧ (runnerCalls run.trace).length = 1 ∧
      memcpyCalls run.trace = [] ∧ streamChecks run.trace = [] := by
  cases e with
  | OK => simp [Status.ok] at he
  | Error code msg =>
    refine ⟨_, exec_runner_error ext self ba stream profiler p s0 s1 code msg hpop h0 h1 hrun,
      rfl, ?_, ?_, ?_⟩
    · simp only [runnerCalls_append, runnerCalls_dispatchLog]; simp [runnerCalls]
    · simp only [memcpyCalls_append, memcpyCalls_dispatchLog]; simp [memcpyCalls]
    · simp only [streamChecks_append, streamChecks_dispatchLog]; simp [streamChecks]

theorem assignBuffers_some {Cfg : Type} (self : ConvolutionThunk) (ba : BufferAllocations)
    (p : CudnnConvParams Cfg) (r : CudnnConvParams Cfg × List (Event Cfg))
    (h : assignBuffers self ba p = some r) :
    ∃ s0 s1, self.operand_buffers_[0]? = some s0 ∧ self.operand_buffers_[1]? = some s1 := by
  rcases hl : self.operand_buffers_ with _ | ⟨a, _ | ⟨b, t⟩⟩
  · cases hk : p.kind <;> simp [assignBuffers, hk, hl] at h
  · cases hk : p.kind <;> simp [assignBuffers, hk, hl] at h
  · exact ⟨a, b, by simp, by simp⟩

/-- Every completed invocation is one of three shapes: the populator failed;
the runner failed; or the write-back and the stream check were reached. -/
theorem exec_cases {Cfg : Type} (ext : Collaborators Cfg) (self : ConvolutionThunk)
    (ba : BufferAllocations) (stream : StreamPtr) (profiler : ProfilerPtr) (run : Run Cfg)
    (hexec : ExecuteOnStream ext self ba stream profiler = some run) :
    (∃ code msg p, ext.PopulateCudnnConvParams self.cudnn_call_ = (Status.Error code msg, p) ∧
        run = ⟨[Event.populate self.cudnn_call_], Status.Error code msg⟩) ∨
    (∃ p s0 s1, ext.PopulateCudnnConvParams self.cudnn_call_ = (Status.OK, p) ∧
        self.operand_buffers_[0]? = some s0 ∧ self.operand_buffers_[1]? = some s1 ∧
        ((∃ code msg,
            ext.RunCudnnConvolution
              (tableParams p (ba.GetDeviceAddress s0) (ba.GetDeviceAddress s1)
                (ba.GetDeviceAddress self.result_buffer_))
              (ba.GetDeviceAddress self.scratch_buffer_) stream = Status.Error code msg ∧
            run = ⟨dispatchLog self ba stream profiler p s0 s1 ++
                    [Event.profilerClose profiler self.hlo_instruction], Status.Error code msg⟩) ∨
         (ext.RunCudnnConvolution
              (tableParams p (ba.GetDeviceAddress s0) (ba.GetDeviceAddress s1)
                (ba.GetDeviceAddress self.result_buffer_))
              (ba.GetDeviceAddress self.scratch_buffer_) stream = Status.OK ∧
            run = ⟨dispatchLog self ba stream profiler p s0 s1 ++
                    writeBackLog self ba stream p s0 s1 ++
                    [Event.streamOk stream, Event.profilerClose profiler self.hlo_instruction],
                  if ext.stream_ok stream
                      (dispatchLog self ba stream profiler p s0 s1 ++
                        writeBackLog self ba stream p s0 s1)
                  then Status.OK
                  else InternalError "ConvolutionThunk::ExecuteOnStream failed."⟩))) := by
  rcases hpop : ext.PopulateCudnnConvParams self.cudnn_call_ with ⟨st, p⟩
  cases st with
  | Error code msg =>
    left
    rw [exec_populate_error ext self ba stream profiler code msg p hpop] at hexec
    exact ⟨code, msg, p, rfl, (Option.some.inj hexec).symm⟩
  | OK =>
    right
    cases hab : assignBuffers self ba p with
    | none => simp [ExecuteOnStream, hpop, hab] at hexec
    | some r =>
      obtain ⟨s0, s1, h0, h1⟩ := assignBuffers_some self ba p r hab
      refine ⟨p, s0, s1, rfl, h0, h1, ?_⟩
      cases hrun : ext.RunCudnnConvolution
          (tableParams p (ba.GetDeviceAddress s0) (ba.GetDeviceAddress s1)
            (ba.GetDeviceAddress self.result_buffer_))
          (ba.GetDeviceAddress self.scratch_buffer_) stream with
      | Error code msg =>
        left
        rw [exec_runner_error ext self ba stream profiler p s0 s1 code msg hpop h0 h1 hrun]
          at hexec
        exact ⟨code, msg, rfl, (Option.some.inj hexec).symm⟩
      | OK =>
        right
        rw [exec_runner_ok ext self ba stream profiler p s0 s1 hpop h0 h1 hrun] at hexec
        exact ⟨rfl, (Option.some.inj hexec).symm⟩

theorem filter_isStreamOp_dispatchLog {Cfg : Type} (self : ConvolutionThunk)
    (ba : BufferAllocations) (stream : StreamPtr) (profiler : ProfilerPtr)
    (p : CudnnConvParams Cfg) (s0 s1 : Slice) :
    (dispatchLog self ba stream profiler p s0 s1).filter Event.isStreamOp =
      [Event.runCudnnConvolution
        (tableParams p (ba.GetDeviceAddress s0) (ba.GetDeviceAddress s1)
          (ba.GetDeviceAddress self.result_buffer_))
        (ba.GetDeviceAddress self.scratch_buffer_) stream] := by
  cases hk : p.kind <;> simp [dispatchLog, resolutionOrder, Event.isStreamOp, hk]

theorem not_mem_memcpy_dispatchLog {Cfg : Type} (self : ConvolutionThunk)
    (ba : BufferAllocations) (stream : StreamPtr) (profiler : ProfilerPtr)
    (p : CudnnConvParams Cfg) (s0 s1 : Slice) (s : StreamPtr) (ptrs : List Nat)
    (dst : DeviceMemoryBase) :
    Event.thenMemcpyH2D s ptrs dst ∉ dispatchLog self ba stream profiler p s0 s1 := by
  cases hk : p.kind <;> simp [dispatchLog, resolutionOrder, hk]

/-- C6: when the populator and the runner both succeed, the copy is the last
call before the read of the stream's error state, `ExecuteOnStream` returns
OK if and only if that read reports no error, and returns the internal error
"ConvolutionThunk::ExecuteOnStream failed." otherwise, the copy having been
enqueued all the same.  So it returns OK exactly when the populator succeeds,
the runner succeeds and the stream is ok. -/
theorem success_iff_stream_ok_after_write_back {Cfg : Type} (ext : Collaborators Cfg)
    (self : ConvolutionThunk) (ba : BufferAllocations) (stream : StreamPtr)
    (profiler : ProfilerPtr) (s0 s1 : Slice)
    (h0 : self.operand_buffers_[0]? = some s0) (h1 : self.operand_buffers_[1]? = some s1) :
    ∃ run, ExecuteOnStream ext self ba stream profiler = some run ∧
      (∀ p, ext.PopulateCudnnConvParams self.cudnn_call_ = (Status.OK, p) →
        ext.RunCudnnConvolution
          (tableParams p (ba.GetDeviceAddress s0) (ba.GetDeviceAddress s1)
            (ba.GetDeviceAddress self.result_buffer_))
          (ba.GetDeviceAddress self.scratch_buffer_) stream = Status.OK →
        ∃ pre ptrs,
          run.trace = pre ++ [Event.thenMemcpyH2D stream ptrs
                  (ba.GetDeviceAddress self.tuple_result_buffer_)] ++
              [Event.streamOk stream, Event.profilerClose profiler self.hlo_instruction] ∧
          (run.status = Status.OK ↔
            ext.stream_ok stream (pre ++ [Event.thenMemcpyH2D stream ptrs
                  (ba.GetDeviceAddress self.tuple_result_buffer_)]) = true) ∧
          (ext.stream_ok stream (pre ++ [Event.thenMemcpyH2D stream ptrs
                  (ba.GetDeviceAddress self.tuple_result_buffer_)]) = false →
            run.status = Status.Error INTERNAL "ConvolutionThunk::ExecuteOnStream failed." ∧
            memcpyCalls run.trace =
              [(stream, ptrs, ba.GetDeviceAddress self.tuple_result_buffer_)])) ∧
      (run.status = Status.OK ↔
        ∃ p pre, ext.PopulateCudnnConvParams self.cudnn_call_ = (Status.OK, p) ∧
          ext.RunCudnnConvolution
            (tableParams p (ba.GetDeviceAddress s0) (ba.GetDeviceAddress s1)
              (ba.GetDeviceAddress self.result_buffer_))
            (ba.GetDeviceAddress self.scratch_buffer_) stream = Status.OK ∧
          run.trace = pre ++
            [Event.streamOk stream, Event.profilerClose profiler self.hlo_instruction] ∧
          ext.stream_ok stream pre = true) := by
  rcases hpop : ext.PopulateCudnnConvParams self.cudnn_call_ with ⟨st, p⟩
  cases st with
  | Error code msg =>
    refine ⟨_, exec_populate_error ext self ba stream profiler code msg p hpop, ?_, ?_⟩
    · intro p' hp'; simp at hp'
    · simp
  | OK =>
    cases hrun : ext.RunCudnnConvolution
        (tableParams p (ba.GetDeviceAddress s0) (ba.GetDeviceAddress s1)
          (ba.GetDeviceAddress self.result_buffer_))
        (ba.GetDeviceAddress self.scratch_buffer_) stream with
    | Error code msg =>
      refine ⟨_, exec_runner_error ext self ba stream profiler p s0 s1 code msg hpop h0 h1 hrun,
        ?_, ?_⟩
      · intro p' hp' hr'
        obtain rfl : p = p' := by simpa using hp'
        rw [hrun] at hr'; simp at hr'
      · constructor
        · intro h; simp at h
        · rintro ⟨p', pre, hp', hr', -, -⟩
          obtain rfl : p = p' := by simpa using hp'
          rw [hrun] at hr'; simp at hr'
    | OK =>
      refine ⟨_, exec_runner_ok ext self ba stream profiler p s0 s1 hpop h0 h1 hrun, ?_, ?_⟩
      · intro p' hp' _
        obtain rfl : p = p' := by simpa using hp'
        refine ⟨dispatchLog self ba stream profiler p s0 s1 ++
            [Event.getDeviceAddress self.tuple_result_buffer_],
          [result_ptr (tableParams p (ba.GetDeviceAddress s0) (ba.GetDeviceAddress s1)
              (ba.GetDeviceAddress self.result_buffer_)),
            (ba.GetDeviceAddress self.scratch_buffer_).opaque_], ?_, ?_, ?_⟩
        · simp [writeBackLog]
        · simp only [writeBackLog, List.append_assoc, List.singleton_append]
          split <;> simp_all [InternalError]
        · intro hbad
          simp only [writeBackLog, List.append_assoc, List.singleton_append] at hbad ⊢
          refine ⟨by simp [hbad, InternalError], ?_⟩
          simp only [memcpyCalls_append, memcpyCalls_dispatchLog]; simp [memcpyCalls]
      · constructor
        · intro h
          refine ⟨p, _, rfl, hrun, rfl, ?_⟩
          by_contra hne
          simp [hne, InternalError] at h
        · rintro ⟨p', pre, hp', -, htr, hok⟩
          obtain rfl : pre = dispatchLog self ba stream profiler p s0 s1 ++
              writeBackLog self ba stream p s0 s1 :=
            (List.append_cancel_right htr).symm
          simp [hok]

theorem filter_isProfiler_resolutions {Cfg : Type} (cudnn_call : HloInstructionPtr)
    (kind : CudnnConvKind) (s0 s1 result : Slice) :
    (Event.populate cudnn_call ::
      ((resolutionOrder kind s0 s1 result).map
        (Event.getDeviceAddress : Slice → Event Cfg))).filter Event.isProfiler = [] := by
  cases kind <;> simp [resolutionOrder, Event.isProfiler]

/-- C7: in every execution in which the tuple write-back is enqueued, the
things done with a stream are, in this order, the runner dispatch, the tuple
write-back and the read of the error state, all three on the stream passed to
`ExecuteOnStream`. -/
theorem dispatch_then_write_back_then_check {Cfg : Type} (ext : Collaborators Cfg)
    (self : ConvolutionThunk) (ba : BufferAllocations) (stream : StreamPtr)
    (profiler : ProfilerPtr) (run : Run Cfg)
    (hexec : ExecuteOnStream ext self ba stream profiler = some run)
    (hwb : ∃ s ptrs dst, Event.thenMemcpyH2D s ptrs dst ∈ run.trace) :
    ∃ q scratch ptrs dst,
      run.trace.filter Event.isStreamOp =
        [Event.runCudnnConvolution q scratch stream, Event.thenMemcpyH2D stream ptrs dst,
         Event.streamOk stream] := by
  obtain ⟨s, ptrs, dst, hmem⟩ := hwb
  rcases exec_cases ext self ba stream profiler run hexec with
    ⟨code, msg, p, -, rfl⟩ | ⟨p, s0, s1, -, -, -, ⟨code, msg, -, rfl⟩ | ⟨-, rfl⟩⟩
  · simp at hmem
  · exfalso
    simp only [List.mem_append, List.mem_singleton] at hmem
    rcases hmem with hmem | hmem
    · exact not_mem_memcpy_dispatchLog self ba stream profiler p s0 s1 s ptrs dst hmem
    · simp at hmem
  · refine ⟨tableParams p (ba.GetDeviceAddress s0) (ba.GetDeviceAddress s1)
        (ba.GetDeviceAddress self.result_buffer_),
      ba.GetDeviceAddress self.scratch_buffer_,
      [result_ptr (tableParams p (ba.GetDeviceAddress s0) (ba.GetDeviceAddress s1)
          (ba.GetDeviceAddress self.result_buffer_)),
        (ba.GetDeviceAddress self.scratch_buffer_).opaque_],
      ba.GetDeviceAddress self.tuple_result_buffer_, ?_⟩
    simp only [List.filter_append, filter_isStreamOp_dispatchLog]
    simp [writeBackLog, Event.isStreamOp]

/-- C8 (as amended): in every execution in which the populator succeeds, the
span is opened right after the scratch region is resolved and right before the
runner is invoked; it is opened once and released once, and the release is the
last entry of the log: it directly follows the runner invocation when the
runner fails, and it follows the resolution of the tuple region, the tuple
write-back and the read of the stream's error state when the runner
succeeds. -/
theorem span_lasts_until_return {Cfg : Type} (ext : Collaborators Cfg)
    (self : ConvolutionThunk) (ba : BufferAllocations) (stream : StreamPtr)
    (profiler : ProfilerPtr) (p : CudnnConvParams Cfg) (s0 s1 : Slice)
    (hpop : ext.PopulateCudnnConvParams self.cudnn_call_ = (Status.OK, p))
    (h0 : self.operand_buffers_[0]? = some s0) (h1 : self.operand_buffers_[1]? = some s1) :
    ∃ run pre q rest, ExecuteOnStream ext self ba stream profiler = some run ∧
      run.trace = pre ++
        [Event.getDeviceAddress self.scratch_buffer_,
         Event.profilerOpen profiler self.hlo_instruction,
         Event.runCudnnConvolution q (ba.GetDeviceAddress self.scratch_buffer_) stream] ++
        rest ++ [Event.profilerClose profiler self.hlo_instruction] ∧
      pre.filter Event.isProfiler = [] ∧ rest.filter Event.isProfiler = [] ∧
      (ext.RunCudnnConvolution q (ba.GetDeviceAddress self.scratch_buffer_) stream ≠ Status.OK →
        rest = []) ∧
      (ext.RunCudnnConvolution q (ba.GetDeviceAddress self.scratch_buffer_) stream = Status.OK →
        ∃ ptrs, rest =
          [Event.getDeviceAddress self.tuple_result_buffer_,
           Event.thenMemcpyH2D stream ptrs (ba.GetDeviceAddress self.tuple_result_buffer_),
           Event.streamOk stream]) := by
  cases hrun : ext.RunCudnnConvolution
      (tableParams p (ba.GetDeviceAddress s0) (ba.GetDeviceAddress s1)
        (ba.GetDeviceAddress self.result_buffer_))
      (ba.GetDeviceAddress self.scratch_buffer_) stream with
  | Error code msg =>
    refine ⟨_, Event.populate self.cudnn_call_ ::
        ((resolutionOrder p.kind s0 s1 self.result_buffer_).map Event.getDeviceAddress),
      tableParams p (ba.GetDeviceAddress s0) (ba.GetDeviceAddress s1)
        (ba.GetDeviceAddress self.result_buffer_), [],
      exec_runner_error ext self ba stream profiler p s0 s1 code msg hpop h0 h1 hrun,
      ?_, filter_isProfiler_resolutions _ _ _ _ _, rfl, ?_, ?_⟩
    · simp [dispatchLog]
    · intro _; rfl
    · intro h; rw [hrun] at h; simp at h
  | OK =>
    refine ⟨_, Event.populate self.cudnn_call_ ::
        ((resolutionOrder p.kind s0 s1 self.result_buffer_).map Event.getDeviceAddress),
      tableParams p (ba.GetDeviceAddress s0) (ba.GetDeviceAddress s1)
        (ba.GetDeviceAddress self.result_buffer_),
      writeBackLog self ba stream p s0 s1 ++ [Event.streamOk stream],
      exec_runner_ok ext self ba stream profiler p s0 s1 hpop h0 h1 hrun,
      ?_, filter_isProfiler_resolutions _ _ _ _ _, ?_, ?_, ?_⟩
    · simp [dispatchLog]
    · simp [writeBackLog, Event.isProfiler]
    · intro h; exact absurd hrun h
    · intro _; exact ⟨_, rfl⟩

/-- C9: a unit with at least two operand regions completes its invocation
without an out-of-range operand lookup, whatever the kind; and replacing its
operand sequence by any other with the same entries 0 and 1 changes nothing
of what the invocation does or returns. -/
theorem only_operands_zero_and_one_are_read {Cfg : Type} (ext : Collaborators Cfg)
    (self : ConvolutionThunk) (ba : BufferAllocations) (stream : StreamPtr)
    (profiler : ProfilerPtr) (others : List Slice)
    (hlen : 2 ≤ self.operand_buffers_.length)
    (h0 : others[0]? = self.operand_buffers_[0]?)
    (h1 : others[1]? = self.operand_buffers_[1]?) :
    (ExecuteOnStream ext self ba stream profiler).isSome = true ∧
      ExecuteOnStream ext { self with operand_buffers_ := others } ba stream profiler =
        ExecuteOnStream ext self ba stream profiler := by
  obtain ⟨s0, s1, hs0, hs1⟩ := operands_of_length hlen
  have hab : ∀ p : CudnnConvParams Cfg,
      assignBuffers { self with operand_buffers_ := others } ba p = assignBuffers self ba p := by
    intro p
    rw [assignBuffers_eq self ba p s0 s1 hs0 hs1,
      assignBuffers_eq { self with operand_buffers_ := others } ba p s0 s1
        (by simpa [hs0] using h0) (by simpa [hs1] using h1)]
  constructor
  · rcases hpop : ext.PopulateCudnnConvParams self.cudnn_call_ with ⟨st, p⟩
    cases st with
    | Error code msg =>
      rw [exec_populate_error ext self ba stream profiler code msg p hpop]; rfl
    | OK =>
      cases hrun : ext.RunCudnnConvolution
          (tableParams p (ba.GetDeviceAddress s0) (ba.GetDeviceAddress s1)
            (ba.GetDeviceAddress self.result_buffer_))
          (ba.GetDeviceAddress self.scratch_buffer_) stream with
      | Error code msg =>
        rw [exec_runner_error ext self ba stream profiler p s0 s1 code msg hpop hs0 hs1 hrun]
        rfl
      | OK =>
        rw [exec_runner_ok ext self ba stream profiler p s0 s1 hpop hs0 hs1 hrun]; rfl
  · simp only [ExecuteOnStream, hab]
    rfl

/-- C10: the record handed to the runner is the populator's record with at
most its input, filter and output addresses changed: same kind, same
configuration; and slot 0 of any tuple written is selected from that record
by the kind the populator supplied. -/
theorem only_address_fields_change {Cfg : Type} (ext : Collaborators Cfg)
    (self : ConvolutionThunk) (ba : BufferAllocations) (stream : StreamPtr)
    (profiler : ProfilerPtr) (p : CudnnConvParams Cfg) (s0 s1 : Slice)
    (hpop : ext.PopulateCudnnConvParams self.cudnn_call_ = (Status.OK, p))
    (h0 : self.operand_buffers_[0]? = some s0) (h1 : self.operand_buffers_[1]? = some s1) :
    ∃ run q, ExecuteOnStream ext self ba stream profiler = some run ∧
      runnerCalls run.trace = [(q, ba.GetDeviceAddress self.scratch_buffer_, stream)] ∧
      q.kind = p.kind ∧ q.config = p.config ∧
      q = { p with input_buf := q.input_buf, filter_buf := q.filter_buf,
                   output_buf := q.output_buf } ∧
      ∀ m ∈ memcpyCalls run.trace, m.2.1.head? = some (selectedResult p.kind q).opaque_ := by
  have hsel : result_ptr (tableParams p (ba.GetDeviceAddress s0) (ba.GetDeviceAddress s1)
        (ba.GetDeviceAddress self.result_buffer_)) =
      (selectedResult p.kind (tableParams p (ba.GetDeviceAddress s0) (ba.GetDeviceAddress s1)
        (ba.GetDeviceAddress self.result_buffer_))).opaque_ := by
    cases hk : p.kind <;> simp [result_ptr, selectedResult, tableParams, hk]
  cases hrun : ext.RunCudnnConvolution
      (tableParams p (ba.GetDeviceAddress s0) (ba.GetDeviceAddress s1)
        (ba.GetDeviceAddress self.result_buffer_))
      (ba.GetDeviceAddress self.scratch_buffer_) stream with
  | Error code msg =>
    refine ⟨_, tableParams p (ba.GetDeviceAddress s0) (ba.GetDeviceAddress s1)
        (ba.GetDeviceAddress self.result_buffer_),
      exec_runner_error ext self ba stream profiler p s0 s1 code msg hpop h0 h1 hrun,
      ?_, rfl, rfl, rfl, ?_⟩
    · simp only [runnerCalls_append, runnerCalls_dispatchLog]; simp [runnerCalls]
    · simp only [memcpyCalls_append, memcpyCalls_dispatchLog]; simp [memcpyCalls]
  | OK =>
    refine ⟨_, tableParams p (ba.GetDeviceAddress s0) (ba.GetDeviceAddress s1)
        (ba.GetDeviceAddress self.result_buffer_),
      exec_runner_ok ext self ba stream profiler p s0 s1 hpop h0 h1 hrun,
      ?_, rfl, rfl, rfl, ?_⟩
    · simp only [runnerCalls_append, runnerCalls_dispatchLog]; simp [writeBackLog, runnerCalls]
    · simp only [memcpyCalls_append, memcpyCalls_dispatchLog]
      simp [writeBackLog, memcpyCalls, hsel]

/-! ## Concrete instances -/

/-- A BackwardFilter invocation of the example unit: the runner gets (input, filter,
output) = (operand 0, result, operand 1). -/
theorem runner_receives_kind_table_witness :
    exampleThunk.operand_buffers_[0]? = some ⟨0, 0, 64⟩ ∧
    exampleThunk.operand_buffers_[1]? = some ⟨0, 64, 32⟩ ∧
    ∃ run q,
      ExecuteOnStream (exampleCollaborators CudnnConvKind.kBackwardFilter Status.OK true)
        exampleThunk exampleAllocations 7 9 = some run ∧
      runnerCalls run.trace = [(q, ⟨3000, 256⟩, 7)] ∧
      (q.input_buf, q.filter_buf, q.output_buf) = (⟨1000, 64⟩, ⟨2000, 128⟩, ⟨1064, 32⟩) := by
  obtain ⟨run, q, hexec, hcalls, -, -, hbf⟩ :=
    runner_receives_kind_table
      (exampleCollaborators CudnnConvKind.kBackwardFilter Status.OK true)
      exampleThunk exampleAllocations 7 9
      ⟨CudnnConvKind.kBackwardFilter, ⟨0, 0⟩, ⟨0, 0⟩, ⟨0, 0⟩, 5⟩ ⟨0, 0, 64⟩ ⟨0, 64, 32⟩ rfl rfl rfl
  exact ⟨rfl, rfl, run, q, hexec, hcalls, hbf rfl⟩

/-- A BackwardInput invocation of the example unit with populator and runner
succeeding: one copy, of [X, 3000], into the tuple region at 4000. -/
theorem write_back_is_selected_result_and_scratch_witness :
    exampleThunk.operand_buffers_[0]? = some ⟨0, 0, 64⟩ ∧
    exampleThunk.operand_buffers_[1]? = some ⟨0, 64, 32⟩ ∧
    ∃ run q X,
      ExecuteOnStream (exampleCollaborators CudnnConvKind.kBackwardInput Status.OK true)
        exampleThunk exampleAllocations 7 9 = some run ∧
      runnerCalls run.trace = [(q, ⟨3000, 256⟩, 7)] ∧
      memcpyCalls run.trace = [(7, [X, 3000], ⟨4000, 16⟩)] ∧
      (q.kind = CudnnConvKind.kForward → X = q.output_buf.opaque_) ∧
      (q.kind = CudnnConvKind.kBackwardInput → X = q.input_buf.opaque_) ∧
      (q.kind = CudnnConvKind.kBackwardFilter → X = q.filter_buf.opaque_) :=
  ⟨rfl, rfl,
    write_back_is_selected_result_and_scratch
      (exampleCollaborators CudnnConvKind.kBackwardInput Status.OK true)
      exampleThunk exampleAllocations 7 9
      ⟨CudnnConvKind.kBackwardInput, ⟨0, 0⟩, ⟨0, 0⟩, ⟨0, 0⟩, 5⟩ ⟨0, 0, 64⟩ ⟨0, 64, 32⟩
      rfl rfl rfl rfl⟩

/-- A BackwardFilter invocation of the example unit: the tuple written is (2000,
3000), the addresses of the result region and of the scratch region. -/
theorem tuple_is_result_and_scratch_witness :
    exampleThunk.operand_buffers_[0]? = some ⟨0, 0, 64⟩ ∧
    exampleThunk.operand_buffers_[1]? = some ⟨0, 64, 32⟩ ∧
    ∃ run,
      ExecuteOnStream (exampleCollaborators CudnnConvKind.kBackwardFilter Status.OK true)
        exampleThunk exampleAllocations 7 9 = some run ∧
      memcpyCalls run.trace = [(7, [2000, 3000], ⟨4000, 16⟩)] := by
  obtain ⟨run, slot0, hexec, hmem, hslot, -⟩ :=
    tuple_is_result_and_scratch
      (exampleCollaborators CudnnConvKind.kBackwardFilter Status.OK true)
      exampleThunk exampleAllocations 7 9
      ⟨CudnnConvKind.kBackwardFilter, ⟨0, 0⟩, ⟨0, 0⟩, ⟨0, 0⟩, 5⟩ ⟨0, 0, 64⟩ ⟨0, 64, 32⟩
      rfl rfl rfl rfl
  subst hslot
  exact ⟨rfl, rfl, run, hexec, hmem⟩

/-- An invocation whose populator rejects the descriptor: the log is the populator
call alone. -/
theorem populate_failure_has_no_other_effect_witness :
    (Status.Error 3 "bad descriptor").ok = false ∧
    ∃ run, ExecuteOnStream failingPopulator exampleThunk exampleAllocations 7 9 = some run ∧
      run.status = Status.Error 3 "bad descriptor" ∧ run.trace = [Event.populate 1] ∧
      runnerCalls run.trace = [] ∧ resolvedSlices run.trace = [] ∧
      run.trace.filter Event.isProfiler = [] ∧ memcpyCalls run.trace = [] :=
  ⟨rfl,
    populate_failure_has_no_other_effect failingPopulator exampleThunk exampleAllocations 7 9
      (Status.Error 3 "bad descriptor")
      ⟨CudnnConvKind.kForward, ⟨0, 0⟩, ⟨0, 0⟩, ⟨0, 0⟩, 0⟩ rfl rfl⟩

/-- A Forward invocation whose runner fails: its error is returned, nothing is
copied and the stream is not asked. -/
theorem runner_failure_is_propagated_witness :
    (Status.Error 2 "no algorithm").ok = false ∧
    ∃ run,
      ExecuteOnStream
        (exampleCollaborators CudnnConvKind.kForward (Status.Error 2 "no algorithm") true)
        exampleThunk exampleAllocations 7 9 = some run ∧
      run.status = Status.Error 2 "no algorithm" ∧ (runnerCalls run.trace).length = 1 ∧
      memcpyCalls run.trace = [] ∧ streamChecks run.trace = [] :=
  ⟨rfl,
    runner_failure_is_propagated
      (exampleCollaborators CudnnConvKind.kForward (Status.Error 2 "no algorithm") true)
      exampleThunk exampleAllocations 7 9
      ⟨CudnnConvKind.kForward, ⟨0, 0⟩, ⟨0, 0⟩, ⟨0, 0⟩, 5⟩ ⟨0, 0, 64⟩ ⟨0, 64, 32⟩
      (Status.Error 2 "no algorithm") rfl rfl rfl rfl rfl⟩

/-- A BackwardInput invocation whose stream reports an error after the copy: the
internal error is returned and the copy is in the log. -/
theorem success_iff_stream_ok_after_write_back_witness :
    exampleThunk.operand_buffers_[0]? = some ⟨0, 0, 64⟩ ∧
    exampleThunk.operand_buffers_[1]? = some ⟨0, 64, 32⟩ ∧
    ∃ run,
      ExecuteOnStream (exampleCollaborators CudnnConvKind.kBackwardInput Status.OK false)
        exampleThunk exampleAllocations 7 9 = some run ∧
      run.status = Status.Error 13 "ConvolutionThunk::ExecuteOnStream failed." ∧
      memcpyCalls run.trace = [(7, [2000, 3000], ⟨4000, 16⟩)] := by
  obtain ⟨run, hexec, hboth, -⟩ :=
    success_iff_stream_ok_after_write_back
      (exampleCollaborators CudnnConvKind.kBackwardInput Status.OK false)
      exampleThunk exampleAllocations 7 9 ⟨0, 0, 64⟩ ⟨0, 64, 32⟩ rfl rfl
  obtain ⟨pre, ptrs, -, -, hbad⟩ := hboth _ rfl rfl
  obtain ⟨hstatus, -⟩ := hbad rfl
  refine ⟨rfl, rfl, run, hexec, hstatus, ?_⟩
  have hrun : run = _ := Option.some.inj (hexec.symm.trans rfl)
  rw [hrun]
  rfl

/-- The Forward invocation of the example unit: dispatch, copy and check, in this
order, on stream 7. -/
theorem dispatch_then_write_back_then_check_witness :
    ExecuteOnStream (exampleCollaborators CudnnConvKind.kForward Status.OK true)
        exampleThunk exampleAllocations 7 9 = some exampleForwardRun ∧
    (∃ s ptrs dst, Event.thenMemcpyH2D s ptrs dst ∈ exampleForwardRun.trace) ∧
    ∃ q scratch ptrs dst,
      exampleForwardRun.trace.filter Event.isStreamOp =
        [Event.runCudnnConvolution q scratch 7, Event.thenMemcpyH2D 7 ptrs dst,
         Event.streamOk 7] :=
  ⟨rfl, ⟨7, [2000, 3000], ⟨4000, 16⟩, by simp [exampleForwardRun]⟩,
    dispatch_then_write_back_then_check
      (exampleCollaborators CudnnConvKind.kForward Status.OK true)
      exampleThunk exampleAllocations 7 9 exampleForwardRun rfl
      ⟨7, [2000, 3000], ⟨4000, 16⟩, by simp [exampleForwardRun]⟩⟩

/-- C8 (as stated) fails: in the Forward invocation `exampleForwardRun`, where
populator, runner and stream all succeed, the span is released as the last
entry of the log, after the tuple write-back was enqueued and after the
stream's error state was read, not as soon as the runner invocation ended. -/
theorem span_outlives_write_back_and_check :
    ExecuteOnStream (exampleCollaborators CudnnConvKind.kForward Status.OK true)
        exampleThunk exampleAllocations 7 9 = some exampleForwardRun ∧
    exampleForwardRun.trace.drop 8 =
      [Event.thenMemcpyH2D 7 [2000, 3000] ⟨4000, 16⟩, Event.streamOk 7,
       Event.profilerClose 9 1] ∧
    releasedBeforeWriteBack exampleForwardRun.trace = false :=
  ⟨rfl, rfl, rfl⟩

/-- A Forward invocation of the example unit with everything succeeding: the span
is closed after the copy and the stream check. -/
theorem span_lasts_until_return_witness :
    exampleThunk.operand_buffers_[0]? = some ⟨0, 0, 64⟩ ∧
    exampleThunk.operand_buffers_[1]? = some ⟨0, 64, 32⟩ ∧
    ∃ run pre q rest,
      ExecuteOnStream (exampleCollaborators CudnnConvKind.kForward Status.OK true)
        exampleThunk exampleAllocations 7 9 = some run ∧
      run.trace = pre ++
        [Event.getDeviceAddress ⟨2, 0, 256⟩, Event.profilerOpen 9 1,
         Event.runCudnnConvolution q ⟨3000, 256⟩ 7] ++
        rest ++ [Event.profilerClose 9 1] ∧
      pre.filter Event.isProfiler = [] ∧ rest.filter Event.isProfiler = [] ∧
      ∃ ptrs, rest =
        [Event.getDeviceAddress ⟨3, 0, 16⟩, Event.thenMemcpyH2D 7 ptrs ⟨4000, 16⟩,
         Event.streamOk 7] := by
  obtain ⟨run, pre, q, rest, hexec, htrace, hpre, hrest, -, hok⟩ :=
    span_lasts_until_return
      (exampleCollaborators CudnnConvKind.kForward Status.OK true)
      exampleThunk exampleAllocations 7 9
      ⟨CudnnConvKind.kForward, ⟨0, 0⟩, ⟨0, 0⟩, ⟨0, 0⟩, 5⟩ ⟨0, 0, 64⟩ ⟨0, 64, 32⟩ rfl rfl rfl
  exact ⟨rfl, rfl, run, pre, q, rest, hexec, htrace, hpre, hrest, hok rfl⟩

/-- The example unit and a unit with two more, different, operand regions past
index 1 behave alike. -/
theorem only_operands_zero_and_one_are_read_witness :
    2 ≤ exampleThunk.operand_buffers_.length ∧
    (ExecuteOnStream (exampleCollaborators CudnnConvKind.kBackwardInput Status.OK true)
        exampleThunk exampleAllocations 7 9).isSome = true ∧
    ExecuteOnStream (exampleCollaborators CudnnConvKind.kBackwardInput Status.OK true)
        { exampleThunk with
          operand_buffers_ := [⟨0, 0, 64⟩, ⟨0, 64, 32⟩, ⟨5, 0, 1⟩, ⟨6, 0, 2⟩] }
        exampleAllocations 7 9 =
      ExecuteOnStream (exampleCollaborators CudnnConvKind.kBackwardInput Status.OK true)
        exampleThunk exampleAllocations 7 9 :=
  ⟨by decide,
    only_operands_zero_and_one_are_read
      (exampleCollaborators CudnnConvKind.kBackwardInput Status.OK true)
      exampleThunk exampleAllocations 7 9 [⟨0, 0, 64⟩, ⟨0, 64, 32⟩, ⟨5, 0, 1⟩, ⟨6, 0, 2⟩]
      (by decide) rfl rfl⟩

/-- A BackwardFilter invocation of the example unit: kind and configuration reach
the runner unchanged. -/
theorem only_address_fields_change_witness :
    exampleThunk.operand_buffers_[0]? = some ⟨0, 0, 64⟩ ∧
    exampleThunk.operand_buffers_[1]? = some ⟨0, 64, 32⟩ ∧
    ∃ run q,
      ExecuteOnStream (exampleCollaborators CudnnConvKind.kBackwardFilter Status.OK true)
        exampleThunk exampleAllocations 7 9 = some run ∧
      runnerCalls run.trace = [(q, ⟨3000, 256⟩, 7)] ∧
      q.kind = CudnnConvKind.kBackwardFilter ∧ q.config = 5 ∧
      ∀ m ∈ memcpyCalls run.trace, m.2.1.head? = some q.filter_buf.opaque_ := by
  obtain ⟨run, q, hexec, hcalls, hkind, hconfig, -, hsel⟩ :=
    only_address_fields_change
      (exampleCollaborators CudnnConvKind.kBackwardFilter Status.OK true)
      exampleThunk exampleAllocations 7 9
      ⟨CudnnConvKind.kBackwardFilter, ⟨0, 0⟩, ⟨0, 0⟩, ⟨0, 0⟩, 5⟩ ⟨0, 0, 64⟩ ⟨0, 64, 32⟩ rfl rfl rfl
  exact ⟨rfl, rfl, run, q, hexec, hcalls, hkind, hconfig, hsel⟩

end gpu
end xla
